import Mathlib

/-!
Shallow embedding of the startmcp MCP gateway core (aggregator, router,
conflict resolver, client demux, transports, gateway server) together with
theorems checking the natural-language specification against it.

Python dictionaries are modelled as insertion-ordered association lists in
which inserting an existing key overwrites the value in place; Python
strings are modelled as Lean strings, with the Python operations
(`in`, `startswith`, `split(sep, 1)`, `lower`, slicing) implemented over
the underlying character lists.
-/

namespace StartMCP

/-- A generic JSON value (payloads the gateway carries verbatim). -/
inductive JVal where
  | null : JVal
  | bool : Bool → JVal
  | num : Int → JVal
  | str : String → JVal
  | arr : List JVal → JVal
  | obj : List (String × JVal) → JVal
deriving Repr

/-! ## Python dict model (insertion-ordered, overwrite in place) -/

/-- Lookup by key: `d[k]` / `d.get(k)`. -/
def pyLookup {α : Type} (d : List (String × α)) (k : String) : Option α :=
  match d with
  | [] => none
  | (k2, v) :: rest => if k2 = k then some v else pyLookup rest k

/-- Membership test: `k in d`. -/
def pyMem {α : Type} (d : List (String × α)) (k : String) : Bool :=
  (pyLookup d k).isSome

/-- Assignment `d[k] = v`: overwrite in place if present, else append. -/
def pyInsert {α : Type} (d : List (String × α)) (k : String) (v : α) :
    List (String × α) :=
  match d with
  | [] => [(k, v)]
  | (k2, w) :: rest =>
      if k2 = k then (k2, v) :: rest else (k2, w) :: pyInsert rest k v

/-- Deletion `d.pop(k, None)`: drop every binding of `k`. -/
def pyErase {α : Type} (d : List (String × α)) (k : String) :
    List (String × α) :=
  d.filter (fun p => p.1 ≠ k)

/-! ## Python string operations -/

/-- Python `s.lower()` (ASCII case folding, which is all the gateway uses). -/
def pyLower (s : String) : String :=
  ⟨s.data.map Char.toLower⟩

/-- Python `pre + s` prefix test `s.startswith(pre)`. -/
def pyStartsWith (s pre : String) : Bool :=
  pre.data.isPrefixOf s.data

/-- Contiguous-sublist test on character lists (`pat in s` once lifted). -/
def listSubstr (pat : List Char) : List Char → Bool
  | [] => pat.isEmpty
  | c :: cs => pat.isPrefixOf (c :: cs) || listSubstr pat cs

/-- Python substring containment `pat in s`. -/
def pyIn (pat s : String) : Bool :=
  listSubstr pat.data s.data

/-- Split a character list at the first occurrence of `sep`;
`none` when `sep` does not occur. -/
def splitFirstAux (sep : List Char) : List Char → Option (List Char × List Char)
  | [] => none
  | c :: cs =>
      if sep.isPrefixOf (c :: cs) then some ([], (c :: cs).drop sep.length)
      else
        match splitFirstAux sep cs with
        | some (pre, post) => some (c :: pre, post)
        | none => none

/-- Python `s.split(sep, 1)` when `sep in s`: the two halves around the
first occurrence of `sep`.  `none` models the one-element result. -/
def pySplitOnce (sep s : String) : Option (String × String) :=
  match splitFirstAux sep.data s.data with
  | some (pre, post) => some (⟨pre⟩, ⟨post⟩)
  | none => none

/-- Python `s[:3]`. -/
def pyTake3 (s : String) : String :=
  ⟨s.data.take 3⟩

/-- Split a character list at every occurrence of the separator
(`"a__b".split("_") == ["a", "", "b"]`, `"".split("_") == [""]`). -/
def splitCharList (sep : Char) : List Char → List (List Char)
  | [] => [[]]
  | c :: cs =>
      if c = sep then [] :: splitCharList sep cs
      else
        match splitCharList sep cs with
        | [] => [[c]]
        | w :: ws => (c :: w) :: ws

/-- Python `s.split(sep)` for a one-character separator. -/
def pySplit (sep : Char) (s : String) : List String :=
  (splitCharList sep s.data).map (fun l => ⟨l⟩)

/-! ## Error model

The Python exceptions the core raises, with their messages.  `className`
is `type(e).__name__`, which the stdio server puts into `error.data.type`.
-/

/-- A raised Python exception, tagged by its class. -/
inductive PyErr where
  | valueError (msg : String)
  | keyError (msg : String)
  | runtimeError (msg : String)
  | protocolError (msg : String)
  | providerError (msg : String)
  | transportError (msg : String)
  | timeoutError (msg : String)
  | notImplementedError (msg : String)
deriving Repr, DecidableEq

/-- `type(e).__name__`. -/
def PyErr.className : PyErr → String
  | .valueError _ => "ValueError"
  | .keyError _ => "KeyError"
  | .runtimeError _ => "RuntimeError"
  | .protocolError _ => "ProtocolError"
  | .providerError _ => "ProviderError"
  | .transportError _ => "TransportError"
  | .timeoutError _ => "TimeoutError"
  | .notImplementedError _ => "NotImplementedError"

/-- The message carried by the exception (`str(e)` for the classes the
gateway surfaces; `KeyError` adds quotes in Python but never reaches a
message-observing boundary in the modelled paths). -/
def PyErr.message : PyErr → String
  | .valueError m => m
  | .keyError m => m
  | .runtimeError m => m
  | .protocolError m => m
  | .providerError m => m
  | .transportError m => m
  | .timeoutError m => m
  | .notImplementedError m => m

/-! ## Protocol data model (`src/mcp/protocol.py`) -/

/-- `Tool` (protocol.py): name, description, verbatim input schema, and the
gateway-injected metadata fields. -/
structure Tool where
  name : String
  description : String
  input_schema : JVal := .obj []
  provider : Option String := none
  category : Option String := none
  namespace_reason : Option String := none
deriving Repr

/-- `Resource` (protocol.py): `resource_type` is one of text/binary/image,
kept as a string since the aggregator copies it verbatim. -/
structure Resource where
  uri : String
  name : String
  description : Option String := none
  mime_type : Option String := none
  resource_type : String := "text"
deriving Repr, DecidableEq

/-! ## Tool aggregation (`src/mcp/aggregator.py`, `ToolAggregator`) -/

/-- What the aggregator sees of one connected provider: its `name`, its
`category.value` (or `None`), and the outcome of `await list_tools()`
(`.error` models a raised exception). -/
structure AggProvider where
  name : String
  category : Option String := none
  listTools : Except String (List Tool) := .ok []

/-- The mutable fields of `ToolAggregator`: `_tool_cache`,
`_provider_map`, `_conflicts`.  A fresh aggregator starts empty. -/
structure ToolAggregatorState where
  toolCache : List (String × Tool) := []
  providerMap : List (String × String) := []
  conflicts : List String := []

/-- The tool list one provider contributes: its `list_tools` result, or
the empty list when the call raised (logged and skipped). -/
def toolsOfProvider (p : AggProvider) : List Tool :=
  match p.listTools with
  | .ok ts => ts
  | .error _ => []

/-- Step 1 of `aggregate_tools`: the `provider_tools` dict, a failed
`list_tools` contributing an empty list. -/
def providerToolsDict (providers : List AggProvider) :
    List (String × List Tool) :=
  providers.foldl (fun d p => pyInsert d p.name (toolsOfProvider p)) []

/-- Every tool name occurrence across the `provider_tools` dict (the
multiset that `tool_name_counts` tallies). -/
def allToolNames (ptools : List (String × List Tool)) : List String :=
  (ptools.map (fun pr => pr.2.map Tool.name)).flatten

/-- Step 2 of `aggregate_tools`: names whose occurrence count exceeds 1. -/
def conflictsOf (ptools : List (String × List Tool)) : List String :=
  (allToolNames ptools).dedup.filter (fun n => 1 < (allToolNames ptools).count n)

/-- The enriched tool built in step 3 for provider `p` and tool `t`. -/
def enrichTool (providerName : String) (category : Option String)
    (conflicts : List String) (t : Tool) : Tool :=
  if conflicts.contains t.name then
    { name := providerName ++ ":" ++ t.name, description := t.description,
      input_schema := t.input_schema, provider := some providerName,
      category := category, namespace_reason := some "conflict" }
  else
    { name := t.name, description := t.description,
      input_schema := t.input_schema, provider := some providerName,
      category := category, namespace_reason := none }

/-- The body of the inner loop of step 3 of `aggregate_tools`: enrich one
tool, append it to the aggregated list, and update both caches. -/
def aggStepTool (providerName : String) (category : Option String)
    (conflicts : List String) (acc : ToolAggregatorState × List Tool)
    (t : Tool) : ToolAggregatorState × List Tool :=
  let et := enrichTool providerName category conflicts t
  ({ toolCache := pyInsert acc.1.toolCache et.name et,
     providerMap := pyInsert acc.1.providerMap et.name providerName,
     conflicts := acc.1.conflicts }, acc.2 ++ [et])

/-- The body of the outer loop of step 3: process every tool the provider
contributed (`provider_tools.get(provider_name, [])`). -/
def aggStepProvider (ptools : List (String × List Tool))
    (conflicts : List String) (acc : ToolAggregatorState × List Tool)
    (p : AggProvider) : ToolAggregatorState × List Tool :=
  ((pyLookup ptools p.name).getD []).foldl
    (aggStepTool p.name p.category conflicts) acc

/-- `ToolAggregator.aggregate_tools`: returns the updated state (the caches
are only ever inserted into, never cleared; `_conflicts` is replaced) and
the aggregated tool list. -/
def aggregate_tools (st : ToolAggregatorState) (providers : List AggProvider) :
    ToolAggregatorState × List Tool :=
  let ptools := providerToolsDict providers
  let conflicts := conflictsOf ptools
  providers.foldl (aggStepProvider ptools conflicts)
    ({ st with conflicts := conflicts }, [])

/-- `ToolAggregator.get_provider_for_tool`: dict hit, else `ValueError`
for a conflicting natural name, else `KeyError`. -/
def get_provider_for_tool (st : ToolAggregatorState) (toolName : String) :
    Except PyErr String :=
  match pyLookup st.providerMap toolName with
  | some p => .ok p
  | none =>
      if st.conflicts.contains toolName then
        .error (.valueError
          ("Ambiguous tool name " ++ toolName ++
           ". This tool exists in multiple providers. Please use namespaced form <provider>:" ++
           toolName))
      else
        .error (.keyError ("Tool " ++ toolName ++ " not found"))

/-! ## Resource aggregation (`src/mcp/aggregator.py`, `ResourceAggregator`) -/

/-- What the resource aggregator sees of one provider. -/
structure ResProvider where
  name : String
  listResources : Except String (List Resource) := .ok []

/-- The `_provider_map` built in `ResourceAggregator.__init__`
(`uri_scheme -> provider_name`, the scheme being the provider name). -/
def resourceProviderMap (providers : List ResProvider) :
    List (String × String) :=
  providers.foldl (fun d p => pyInsert d p.name p.name) []

/-- URI prefixing inside `aggregate_resources`: prepend
`<provider>://` unless the URI already starts with it; all other fields
are copied. -/
def prefixResource (providerName : String) (r : Resource) : Resource :=
  let original_uri := r.uri
  let prefixed_uri :=
    if pyStartsWith original_uri (providerName ++ "://") then original_uri
    else providerName ++ "://" ++ original_uri
  { uri := prefixed_uri, name := r.name, description := r.description,
    mime_type := r.mime_type, resource_type := r.resource_type }

/-- `ResourceAggregator.aggregate_resources`: a failed `list_resources`
skips that provider. -/
def aggregate_resources (providers : List ResProvider) : List Resource :=
  providers.foldl
    (fun acc p =>
      match p.listResources with
      | .error _ => acc
      | .ok rs => acc ++ rs.map (prefixResource p.name))
    []

/-- `ResourceAggregator.get_provider_for_uri`: split on the first `://`;
no separator or unknown scheme is a `ValueError`. -/
def get_provider_for_uri (pmap : List (String × String)) (uri : String) :
    Except PyErr String :=
  match pySplitOnce "://" uri with
  | none =>
      .error (.valueError
        ("Invalid URI format: " ++ uri ++ ". Expected: <provider>://<path>"))
  | some (scheme, _) =>
      match pyLookup pmap scheme with
      | some p => .ok p
      | none =>
          .error (.valueError
            ("Unknown provider scheme " ++ scheme ++ " in URI: " ++ uri))

/-- `ResourceAggregator.strip_provider_prefix`: everything after the first
`://`, or the URI itself when there is none. -/
def stripProviderScheme (uri : String) : String :=
  match pySplitOnce "://" uri with
  | some (_, path) => path
  | none => uri

/-! ## Routing (`src/mcp/router.py`) -/

/-- `ToolCallResult` (protocol.py). -/
structure ToolCallResult where
  content : List JVal
  is_error : Bool := false

/-- `ResourceContent` (protocol.py); the blob is kept abstract. -/
structure ResourceContent where
  uri : String
  mime_type : Option String := none
  text : Option String := none
  blob : Option String := none

/-- A connected provider instance as the routers see it: its MCP calls
are environment-supplied functions (`.error` models a raised exception). -/
structure ProviderInst where
  name : String
  callTool : String → JVal → Except PyErr ToolCallResult
  readResource : String → Except PyErr ResourceContent

/-- One `provider.call_tool(actual_tool_name, arguments)` invocation
performed while routing. -/
structure ToolInvocation where
  provider : String
  tool : String
  args : JVal

/-- One `provider.read_resource(original_uri)` invocation performed while
routing. -/
structure ReadInvocation where
  provider : String
  uri : String

/-- `ToolRouter._parse_tool_name`: split namespaced names on the first
`:` and verify ownership through the aggregator; translate aggregator
errors into `ValueError`s as the source does. -/
def parse_tool_name (agg : ToolAggregatorState) (toolName : String) :
    Except PyErr (String × String) :=
  match pySplitOnce ":" toolName with
  | some (providerName, actualToolName) =>
      match get_provider_for_tool agg toolName with
      | .ok expectedProvider =>
          if expectedProvider ≠ providerName then
            .error (.valueError
              ("Tool " ++ toolName ++ " does not belong to provider " ++
               providerName))
          else .ok (providerName, actualToolName)
      | .error (.keyError _) =>
          .error (.valueError ("Tool " ++ toolName ++ " not found"))
      | .error e => .error e
  | none =>
      match get_provider_for_tool agg toolName with
      | .ok providerName => .ok (providerName, toolName)
      | .error (.valueError m) => .error (.valueError m)
      | .error (.keyError _) =>
          .error (.valueError
            ("Tool " ++ toolName ++
             " not found. Use tools/list to see available tools."))
      | .error e => .error e

/-- `ToolRouter.route_tool_call`: parse the name, look the provider up in
the router's provider dict, and perform the single `call_tool`.  The
first component records every provider invocation made. -/
def route_tool_call (providers : List (String × ProviderInst))
    (agg : ToolAggregatorState) (toolName : String) (arguments : JVal) :
    List ToolInvocation × Except PyErr ToolCallResult :=
  match parse_tool_name agg toolName with
  | .error e => ([], .error e)
  | .ok (providerName, actualToolName) =>
      match pyLookup providers providerName with
      | none =>
          ([], .error (.runtimeError
            ("Provider " ++ providerName ++ " not available or not connected")))
      | some p =>
          ([⟨providerName, actualToolName, arguments⟩],
           p.callTool actualToolName arguments)

/-- `ResourceRouter.route_resource_read`: resolve the scheme, look the
provider up, strip the prefix, and perform the single `read_resource`. -/
def route_resource_read (providers : List (String × ProviderInst))
    (pmap : List (String × String)) (uri : String) :
    List ReadInvocation × Except PyErr ResourceContent :=
  match get_provider_for_uri pmap uri with
  | .error (.valueError m) =>
      ([], .error (.valueError ("Invalid resource URI: " ++ m)))
  | .error e => ([], .error e)
  | .ok providerName =>
      match pyLookup providers providerName with
      | none =>
          ([], .error (.runtimeError
            ("Provider " ++ providerName ++ " not available or not connected")))
      | some p =>
          let original_uri := stripProviderScheme uri
          ([⟨providerName, original_uri⟩], p.readResource original_uri)

/-! ## Conflict resolver (`src/mcp/conflict_resolver.py`) -/

/-- The score assigned to one cached name inside
`ConflictResolver._find_similar_tools`.  Each matching signal
*reassigns* the score, exactly as the Python does. -/
def similarityScore (toolName cachedToolName : String) : Nat :=
  let score := 0
  let score :=
    if pyIn (pyLower toolName) (pyLower cachedToolName) then 10 else score
  let score :=
    if (pySplit '_' toolName).any
        (fun word => pyIn (pyLower word) (pyLower cachedToolName))
    then 5 else score
  let score :=
    if pyStartsWith (pyLower cachedToolName) (pyTake3 (pyLower toolName))
    then 3 else score
  score

/-- Stable insertion keeping scores descending (matches CPython
`list.sort(reverse=True)`: stable, equal scores keep list order). -/
def insertByScoreDesc (x : Nat × String) :
    List (Nat × String) → List (Nat × String)
  | [] => [x]
  | y :: ys => if x.1 < y.1 then y :: insertByScoreDesc x ys else x :: y :: ys

/-- Stable descending sort by score. -/
def sortByScoreDesc : List (Nat × String) → List (Nat × String)
  | [] => []
  | x :: xs => insertByScoreDesc x (sortByScoreDesc xs)

/-- `ConflictResolver._find_similar_tools` over the keys of the
aggregator's `_tool_cache` (in insertion order): keep positively scored
names, sort stably by descending score, take `max_suggestions`. -/
def find_similar_tools (toolCacheKeys : List String) (toolName : String)
    (maxSuggestions : Nat) : List String :=
  let similar :=
    toolCacheKeys.foldl
      (fun acc cachedToolName =>
        let score := similarityScore toolName cachedToolName
        if 0 < score then acc ++ [(score, cachedToolName)] else acc)
      []
  ((sortByScoreDesc similar).take maxSuggestions).map Prod.snd

/-! ## Client demux and transports (`src/mcp/transport/stdio.py`, `sse.py`) -/

/-- An incoming JSON message as the listen loops inspect it: presence or
absence of the `id`, `result`, `error` and `method` members (other
members are never looked at). -/
structure RawMsg where
  id : Option JVal := none
  result : Option JVal := none
  error : Option JVal := none
  method : Option String := none

/-- Python `str(...)` on a correlation id (ids are strings or integers on
every modelled path; compound values get a nominal rendering). -/
def pyStr : JVal → String
  | .str s => s
  | .num n => toString n
  | .bool b => if b then "True" else "False"
  | .null => "None"
  | .arr _ => "[...]"
  | .obj _ => "{...}"

/-- A pending-table entry.  `completed m` abstracts both completions the
loops perform (`set_result` of the parsed response and `set_exception`
on a validation failure): either way the future is done, holding data
derived from `m`. -/
inductive Waiter where
  | waiting
  | completed (m : RawMsg)

/-- The pending-request table `requestId -> future`. -/
abbrev PendingTable : Type := List (String × Waiter)

/-- The match condition in `StdioTransport._listen_loop`:
`"id" in message and ("result" in message or "error" in message)`. -/
def stdioIsResponse (m : RawMsg) : Bool :=
  m.id.isSome && (m.result.isSome || m.error.isSome)

/-- The match condition in `SSETransport._listen_loop`, kept with
Python's operator precedence:
`"id" in message and "result" in message or "error" in message`
parses as `(id and result) or error`. -/
def sseIsResponse (m : RawMsg) : Bool :=
  (m.id.isSome && m.result.isSome) || m.error.isSome

/-- One iteration of `StdioTransport._listen_loop`: a matched message
completes the waiter only when a pending, not-yet-done entry exists;
everything else leaves the table unchanged. -/
def stdioHandleMessage (pending : PendingTable) (m : RawMsg) : PendingTable :=
  if stdioIsResponse m then
    match m.id with
    | none => pending
    | some idv =>
        let request_id := pyStr idv
        match pyLookup pending request_id with
        | some .waiting => pyInsert pending request_id (.completed m)
        | _ => pending
  else pending

/-- One iteration of `SSETransport._listen_loop`.  When the (buggy)
condition matches a message with no `id` member, `message["id"]`
raises `KeyError`. -/
def sseHandleMessage (pending : PendingTable) (m : RawMsg) :
    Except PyErr PendingTable :=
  if sseIsResponse m then
    match m.id with
    | none => .error (.keyError "id")
    | some idv =>
        let request_id := pyStr idv
        match pyLookup pending request_id with
        | some .waiting => .ok (pyInsert pending request_id (.completed m))
        | _ => .ok pending
  else .ok pending

/-- The stdio listen loop over a finite message stream. -/
def stdioListenLoop (pending : PendingTable) : List RawMsg → PendingTable
  | [] => pending
  | m :: ms => stdioListenLoop (stdioHandleMessage pending m) ms

/-- The SSE listen loop: an exception escapes the `async for`, is caught
by the loop's outer handler, and ends the loop (remaining messages
unprocessed). -/
def sseListenLoop (pending : PendingTable) : List RawMsg → PendingTable
  | [] => pending
  | m :: ms =>
      match sseHandleMessage pending m with
      | .ok pending2 => sseListenLoop pending2 ms
      | .error _ => pending

/-- `JSONRPCError` (protocol.py). -/
structure JSONRPCErrorM where
  code : Int
  message : String
  data : Option JVal := none

/-- `JSONRPCResponse` (protocol.py): pydantic turns both an absent and a
null `result` member into `None`, hence a single `Option`. -/
structure JSONRPCResponseM where
  id : JVal
  result : Option (List (String × JVal)) := none
  error : Option JSONRPCErrorM := none

/-- Pydantic validation of the `result: Optional[Dict[str, Any]]` field
from the wire member: absent and `null` both become `None`; a non-dict
value is a validation error. -/
def pydanticOptionalDict :
    Option JVal → Except String (Option (List (String × JVal)))
  | none => .ok none
  | some .null => .ok none
  | some (.obj o) => .ok (some o)
  | some _ => .error "validation error: value is not a dict"

/-- `timeout_duration = timeout or 60.0` (Python `or`: `None` and `0`
both fall back to the 60-second default). -/
def effectiveTimeout (timeout : Option ℚ) : ℚ :=
  match timeout with
  | none => 60
  | some t => if t = 0 then 60 else t

/-- How the environment behaves during one `StdioTransport.send_request`:
the stdin write fails, the future completes with a response, the future
completes with the listen loop's `TransportError`, or no reply arrives
before the deadline. -/
inductive StdioSendOutcome where
  | writeFails (msg : String)
  | completedResult (r : JSONRPCResponseM)
  | completedExc (msg : String)
  | noReply

/-- `StdioTransport.send_request`: returns the call's outcome and the
pending table as it stands when the call returns or raises.  The entry
is inserted after the connectivity check and popped in the `finally`. -/
def stdio_send_request (connected : Bool) (pending : PendingTable)
    (requestId : String) (timeout : Option ℚ) (outcome : StdioSendOutcome) :
    Except PyErr JSONRPCResponseM × PendingTable :=
  if !connected then (.error (.transportError "Not connected"), pending)
  else
    let pending1 := pyInsert pending requestId .waiting
    let timeout_duration := effectiveTimeout timeout
    let res : Except PyErr JSONRPCResponseM :=
      match outcome with
      | .writeFails m => .error (.transportError ("Failed to send request: " ++ m))
      | .completedResult r => .ok r
      | .completedExc m => .error (.transportError m)
      | .noReply =>
          .error (.timeoutError
            ("Request " ++ requestId ++ " timed out after " ++
             toString timeout_duration ++ "s"))
    (res, pyErase pending1 requestId)

/-- How the environment behaves during one `SSETransport.send_request`. -/
inductive SseSendOutcome where
  | postHTTPError (msg : String)
  | postStatusError (code : Nat) (text : String)
  | completedResult (r : JSONRPCResponseM)
  | completedExc (msg : String)
  | noReply

/-- `SSETransport.send_request`: the POST may fail with an HTTP error
(wrapped as `TransportError`) or a status of 400 or above; otherwise the
call waits on the future exactly as the stdio transport does.  The
pending entry is popped in the `finally` on every path. -/
def sse_send_request (connected : Bool) (pending : PendingTable)
    (requestId : String) (timeout : Option ℚ) (outcome : SseSendOutcome) :
    Except PyErr JSONRPCResponseM × PendingTable :=
  if !connected then (.error (.transportError "Not connected"), pending)
  else
    let pending1 := pyInsert pending requestId .waiting
    let timeout_duration := effectiveTimeout timeout
    let res : Except PyErr JSONRPCResponseM :=
      match outcome with
      | .postHTTPError m => .error (.transportError ("HTTP error: " ++ m))
      | .postStatusError code text =>
          .error (.transportError
            ("Server returned " ++ toString code ++ ": " ++ text))
      | .completedResult r => .ok r
      | .completedExc m => .error (.transportError m)
      | .noReply =>
          .error (.timeoutError
            ("Request " ++ requestId ++ " timed out after " ++
             toString timeout_duration ++ "s"))
    (res, pyErase pending1 requestId)

/-! ## Client (`src/mcp/client.py`) -/

/-- The response-inspection half of `MCPClient._send_request`: an error
member raises `ProtocolError`; a `None` result (absent or null on the
wire) raises `ProtocolError`; otherwise the result is returned.  All six
MCP operations (`list_tools`, `call_tool`, `list_resources`,
`read_resource`, `list_prompts`, `get_prompt`) funnel through this. -/
def clientHandleResponse (method : String) (response : JSONRPCResponseM) :
    Except PyErr (List (String × JVal)) :=
  match response.error with
  | some e =>
      .error (.protocolError
        ("MCP error " ++ toString e.code ++ ": " ++ e.message))
  | none =>
      match response.result with
      | none => .error (.protocolError ("No result in response for " ++ method))
      | some r => .ok r

/-! ## Gateway and stdio server (`src/mcp/gateway.py`, `src/mcp/server/stdio_server.py`) -/

/-- The `params` of a `tools/call` request as the handler reads them:
`params.get("name")` and `params.get("arguments", {})`. -/
structure ToolsCallParams where
  name : Option String := none
  arguments : JVal := .obj []

/-- Lower-cased substring test used by the gateway's ambiguity check. -/
def strContainsLower (s pat : String) : Bool :=
  pyIn pat (pyLower s)

/-- `MCPGateway.handle_tools_call`: a falsy name is a `ProtocolError`;
a routing `ValueError` is re-raised as `ProtocolError` with the same
message on both branches of the ambiguity check (the conflict resolver's
payload is computed and then discarded by the source); a `RuntimeError`
becomes `ProviderError`; anything else propagates. -/
def handle_tools_call (providers : List (String × ProviderInst))
    (agg : ToolAggregatorState) (params : ToolsCallParams) :
    Except PyErr ToolCallResult :=
  match params.name with
  | none => .error (.protocolError "Tool name required")
  | some toolName =>
      if toolName = "" then .error (.protocolError "Tool name required")
      else
        match route_tool_call providers agg toolName params.arguments with
        | (_, .ok result) => .ok result
        | (_, .error (.valueError m)) =>
            if strContainsLower m "ambiguous" ||
                strContainsLower m "multiple providers" then
              .error (.protocolError m)
            else
              .error (.protocolError m)
        | (_, .error (.runtimeError m)) => .error (.providerError m)
        | (_, .error e) => .error e

/-- A JSON-RPC response as `StdioMCPServer.handle_request` builds it:
either a result, or an error whose `data` is `{type: <class name>}`. -/
inductive ServerReply (α : Type) where
  | success (id : JVal) (r : α)
  | failure (id : JVal) (code : Int) (message : String) (dataType : Option String)

/-- `StdioMCPServer.handle_request`: unknown method is `-32601`; a
handler exception is `-32000` with `message = str(e)` and
`data = {"type": type(e).__name__}`. -/
def handle_request {π α : Type} (handlers : List (String × (π → Except PyErr α)))
    (rid : JVal) (method : String) (params : π) : ServerReply α :=
  match pyLookup handlers method with
  | none => .failure rid (-32601) ("Method not found: " ++ method) none
  | some handler =>
      match handler params with
      | .ok r => .success rid r
      | .error e => .failure rid (-32000) e.message (some e.className)

/-! ## Specification-side definitions

These follow the wording of the (amended) spec sentences and are compared
with the source-derived functions above. -/

/-- All natural tool-name occurrences across the providers' returned
tool lists, with multiplicity. -/
def specOccurrences (providers : List AggProvider) : List String :=
  (providers.map (fun p => (toolsOfProvider p).map Tool.name)).flatten

/-- The published form of one returned tool per the (amended) aggregation
rule: namespaced with `namespace_reason = "conflict"` exactly when its
natural name occurs more than once across all returned tools, enriched
with the provider name and category either way. -/
def specEnrichedTool (providers : List AggProvider) (p : AggProvider)
    (t : Tool) : Tool :=
  if 1 < (specOccurrences providers).count t.name then
    { name := p.name ++ ":" ++ t.name, description := t.description,
      input_schema := t.input_schema, provider := some p.name,
      category := p.category, namespace_reason := some "conflict" }
  else
    { name := t.name, description := t.description,
      input_schema := t.input_schema, provider := some p.name,
      category := p.category, namespace_reason := none }

/-- The whole published catalog per the (amended) aggregation rule: one
entry per returned tool, in provider order then tool order. -/
def specAggregatedTools (providers : List AggProvider) : List Tool :=
  (providers.map
    (fun p => (toolsOfProvider p).map (specEnrichedTool providers p))).flatten

/-! ## Concrete fixtures (the spec's test scenarios) -/

/-- Scenario-2 provider `p1`: tools `search` and `unique_p1`. -/
def fx_p1 : AggProvider :=
  { name := "p1",
    listTools := .ok
      [{ name := "search", description := "Search P1" },
       { name := "unique_p1", description := "Unique to P1" }] }

/-- Scenario-2 provider `p2`: tools `search` and `unique_p2`. -/
def fx_p2 : AggProvider :=
  { name := "p2",
    listTools := .ok
      [{ name := "search", description := "Search P2" },
       { name := "unique_p2", description := "Unique to P2" }] }

/-- The aggregator state after the scenario-2 run. -/
def fx_agg : ToolAggregatorState :=
  (aggregate_tools {} [fx_p1, fx_p2]).1

/-- A provider whose `list_tools` returns the same tool name twice. -/
def fx_dup : AggProvider :=
  { name := "p1",
    listTools := .ok
      [{ name := "search", description := "Search A" },
       { name := "search", description := "Search B" }] }

/-- Provider `p1` as it stands during the first run: one tool `tool_a`. -/
def fx_p1_a : AggProvider :=
  { name := "p1", listTools := .ok [{ name := "tool_a", description := "A" }] }

/-- Provider `p1` after its catalog changed: one tool `tool_b`. -/
def fx_p1_b : AggProvider :=
  { name := "p1", listTools := .ok [{ name := "tool_b", description := "B" }] }

/-- First aggregation run: `p1` offers `tool_a`. -/
def fx_run1 : ToolAggregatorState × List Tool :=
  aggregate_tools {} [fx_p1_a]

/-- Second run on the same aggregator after the catalog changed to
`tool_b`. -/
def fx_run2 : ToolAggregatorState × List Tool :=
  aggregate_tools fx_run1.1 [fx_p1_b]

/-- A connected provider instance named `p1` with trivial behaviour. -/
def fx_inst : ProviderInst :=
  { name := "p1",
    callTool := fun _ _ => .ok { content := [.str "ok"] },
    readResource := fun u => .ok { uri := u } }

/-- The `tools/call` handler over the scenario-2 aggregate with no
connected provider instances (the modelled error paths fire first). -/
def fx_tools_call_handler : ToolsCallParams → Except PyErr ToolCallResult :=
  handle_tools_call [] fx_agg

/-! ## Helper lemmas about the dict model -/

theorem pyLookup_pyInsert {α : Type} (d : List (String × α)) (k k2 : String)
    (v : α) :
    pyLookup (pyInsert d k v) k2 = if k = k2 then some v else pyLookup d k2 := by
  induction d with
  | nil => simp [pyInsert, pyLookup]
  | cons hd tl ih =>
      obtain ⟨k3, w⟩ := hd
      by_cases h3 : k3 = k
      · subst h3
        by_cases h2 : k3 = k2 <;> simp [pyInsert, pyLookup, h2]
      · by_cases h2 : k3 = k2
        · subst h2
          have hk : ¬ k = k3 := fun h => h3 h.symm
          simp [pyInsert, pyLookup, h3, hk]
        · simp [pyInsert, pyLookup, h3, h2, ih]

theorem pyLookup_pyErase {α : Type} (d : List (String × α)) (k k2 : String) :
    pyLookup (pyErase d k) k2 =
      if k = k2 then none else pyLookup d k2 := by
  induction d with
  | nil => simp [pyErase, pyLookup]
  | cons hd tl ih =>
      obtain ⟨k3, w⟩ := hd
      simp only [pyErase, ne_eq, decide_not] at ih ⊢
      by_cases h3 : k3 = k
      · subst h3
        by_cases h2 : k3 = k2
        · subst h2; simp [pyLookup, List.filter_cons, ih]
        · simp [pyLookup, List.filter_cons, h2, ih]
      · by_cases h2 : k3 = k2
        · subst h2
          have hk : ¬ k = k3 := fun h => h3 h.symm
          simp [pyLookup, List.filter_cons, h3, hk]
        · simp [pyLookup, List.filter_cons, h3, h2, ih]

theorem pyLookup_append {α : Type} (d1 d2 : List (String × α)) (k : String) :
    pyLookup (d1 ++ d2) k =
      match pyLookup d1 k with
      | some v => some v
      | none => pyLookup d2 k := by
  induction d1 with
  | nil => simp [pyLookup]
  | cons hd tl ih =>
      obtain ⟨k3, w⟩ := hd
      by_cases h3 : k3 = k <;> simp [pyLookup, h3, ih]

theorem pyInsert_of_not_mem {α : Type} (d : List (String × α)) (k : String)
    (v : α) (h : pyLookup d k = none) :
    pyInsert d k v = d ++ [(k, v)] := by
  induction d with
  | nil => rfl
  | cons hd tl ih =>
      obtain ⟨k3, w⟩ := hd
      by_cases h3 : k3 = k
      · simp [pyLookup, h3] at h
      · simp [pyLookup, h3] at h
        simp [pyInsert, h3, ih h]

/-! ## Claim theorems -/

/-- C3: for every aggregated catalog mapping `p1:search` to provider `p1`
and every router environment containing an instance for `p1`, routing
`route_tool_call("p1:search", args)` performs exactly one `call_tool`
invocation, on `p1` only, with tool name `search` and arguments `args`,
and returns that call's result unchanged. -/
theorem c3_route_namespaced_call (providers : List (String × ProviderInst))
    (agg : ToolAggregatorState) (args : JVal) (p : ProviderInst)
    (hmap : pyLookup agg.providerMap "p1:search" = some "p1")
    (hprov : pyLookup providers "p1" = some p) :
    route_tool_call providers agg "p1:search" args =
      ([⟨"p1", "search", args⟩], p.callTool "search" args) := by
  have hsplit : pySplitOnce ":" "p1:search" = some ("p1", "search") := by decide
  simp [route_tool_call, parse_tool_name, get_provider_for_tool, hsplit, hmap,
    hprov]

/-- Witness for C3: the scenario-2 aggregate and a concrete `p1`
instance. -/
theorem c3_route_namespaced_call_witness :
    route_tool_call [("p1", fx_inst)] fx_agg "p1:search" (.obj []) =
      ([⟨"p1", "search", .obj []⟩], fx_inst.callTool "search" (.obj [])) :=
  c3_route_namespaced_call [("p1", fx_inst)] fx_agg (.obj []) fx_inst
    (by decide) (by simp [pyLookup])

/-- C7: on every outcome of a `send_request` (reply, timeout, send
failure), both transports remove the pending-table entry for the request
id before returning or raising; with no reply the call fails with the
`TimeoutError` kind, and the effective deadline defaults to 60 seconds. -/
theorem c7_send_request_cleans_pending (pending : PendingTable)
    (requestId : String) (timeout : Option ℚ) (outS : StdioSendOutcome)
    (outE : SseSendOutcome) :
    (stdio_send_request true pending requestId timeout outS).2 =
        pyErase (pyInsert pending requestId .waiting) requestId
    ∧ pyLookup (stdio_send_request true pending requestId timeout outS).2
        requestId = none
    ∧ (outS = .noReply → ∃ m,
        (stdio_send_request true pending requestId timeout outS).1 =
          .error (.timeoutError m))
    ∧ (sse_send_request true pending requestId timeout outE).2 =
        pyErase (pyInsert pending requestId .waiting) requestId
    ∧ pyLookup (sse_send_request true pending requestId timeout outE).2
        requestId = none
    ∧ (outE = .noReply → ∃ m,
        (sse_send_request true pending requestId timeout outE).1 =
          .error (.timeoutError m))
    ∧ effectiveTimeout none = 60 := by
  refine ⟨by simp [stdio_send_request], ?_, ?_, by simp [sse_send_request],
    ?_, ?_, rfl⟩
  · simp [stdio_send_request, pyLookup_pyErase]
  · intro h
    subst h
    refine ⟨"Request " ++ requestId ++ " timed out after " ++
      toString (effectiveTimeout timeout) ++ "s", ?_⟩
    simp [stdio_send_request]
  · simp [sse_send_request, pyLookup_pyErase]
  · intro h
    subst h
    refine ⟨"Request " ++ requestId ++ " timed out after " ++
      toString (effectiveTimeout timeout) ++ "s", ?_⟩
    simp [sse_send_request]

/-- Witness for C7: a concrete timed-out stdio request and SSE request
over a one-entry table. -/
theorem c7_send_request_cleans_pending_witness :
    (stdio_send_request true [("old", Waiter.waiting)] "42" none
        .noReply).2 = [("old", Waiter.waiting)]
    ∧ (∃ m, (stdio_send_request true [("old", Waiter.waiting)] "42" none
        .noReply).1 = .error (.timeoutError m))
    ∧ (∃ m, (sse_send_request true [("old", Waiter.waiting)] "42" none
        .noReply).1 = .error (.timeoutError m)) := by
  have h := c7_send_request_cleans_pending [("old", Waiter.waiting)] "42"
    none .noReply .noReply
  exact ⟨by rw [h.1]; rfl, h.2.2.1 rfl, h.2.2.2.2.2.1 rfl⟩

/-- C10: `MCPClient._send_request` (through which all six client
operations go) fails with `ProtocolError` whenever the correlated
response carries an error object or carries no non-null result, so a
normal return always comes from a response with a non-null result; a
wire `result: null` parses to an absent result and is therefore reported
as a protocol failure. -/
theorem c10_client_requires_result (method : String)
    (response : JSONRPCResponseM) :
    (∀ e, response.error = some e →
      clientHandleResponse method response =
        .error (.protocolError
          ("MCP error " ++ toString e.code ++ ": " ++ e.message)))
    ∧ (response.error = none → response.result = none →
      clientHandleResponse method response =
        .error (.protocolError ("No result in response for " ++ method)))
    ∧ (∀ r, clientHandleResponse method response = .ok r →
        response.error = none ∧ response.result = some r)
    ∧ pydanticOptionalDict (some .null) = .ok none := by
  refine ⟨?_, ?_, ?_, rfl⟩
  · intro e he
    simp [clientHandleResponse, he]
  · intro he hr
    simp [clientHandleResponse, he, hr]
  · intro r hok
    cases he : response.error with
    | some e => simp [clientHandleResponse, he] at hok
    | none =>
        cases hr : response.result with
        | none => simp [clientHandleResponse, he, hr] at hok
        | some v =>
            simp [clientHandleResponse, he, hr] at hok
            subst hok
            exact ⟨rfl, rfl⟩

/-- Witness for C10: a null-result reply to `tools/list` raises
`ProtocolError`. -/
theorem c10_client_requires_result_witness :
    clientHandleResponse "tools/list" { id := .str "1" } =
      .error (.protocolError "No result in response for tools/list") :=
  (c10_client_requires_result "tools/list" { id := .str "1" }).2.1 rfl rfl

/-- C2: after aggregation, a tool-name lookup returns the mapped provider
when the name is a key of `providerByTool`, fails with the ambiguous
kind (`ValueError`) when the name is only in the conflict set, and fails
with the not-found kind (`KeyError`) otherwise; and for a routed name
containing `:`, split at the first `:` into `(prov, local)`, the router
fails with the validation kind (`ValueError`) when the aggregator maps
the full name to a provider other than `prov`. -/
theorem c2_lookup_and_validation (st : ToolAggregatorState) (name : String) :
    (∀ p, pyLookup st.providerMap name = some p →
        get_provider_for_tool st name = .ok p)
    ∧ (pyLookup st.providerMap name = none →
        st.conflicts.contains name = true →
        ∃ m, get_provider_for_tool st name = .error (.valueError m))
    ∧ (pyLookup st.providerMap name = none →
        st.conflicts.contains name = false →
        ∃ m, get_provider_for_tool st name = .error (.keyError m))
    ∧ (∀ prov loc q, pySplitOnce ":" name = some (prov, loc) →
        get_provider_for_tool st name = .ok q → q ≠ prov →
        ∃ m, parse_tool_name st name = .error (.valueError m)) := by
  refine ⟨?_, ?_, ?_, ?_⟩
  · intro p hp
    simp [get_provider_for_tool, hp]
  · intro hnone hc
    have hc2 : name ∈ st.conflicts := by simpa using hc
    refine ⟨"Ambiguous tool name " ++ name ++
      ". This tool exists in multiple providers. Please use namespaced form <provider>:" ++
      name, ?_⟩
    simp [get_provider_for_tool, hnone, hc2]
  · intro hnone hc
    have hc2 : name ∉ st.conflicts := by simpa using hc
    refine ⟨"Tool " ++ name ++ " not found", ?_⟩
    simp [get_provider_for_tool, hnone, hc2]
  · intro prov loc q hsplit hq hne
    refine ⟨"Tool " ++ name ++ " does not belong to provider " ++ prov, ?_⟩
    simp [parse_tool_name, hsplit, hq, hne]

/-- Witness for C2: the scenario-2 aggregate exercises the hit, ambiguous
and not-found branches, and a crafted map exercises the mismatch
branch. -/
theorem c2_lookup_and_validation_witness :
    get_provider_for_tool fx_agg "unique_p1" = .ok "p1"
    ∧ (∃ m, get_provider_for_tool fx_agg "search" = .error (.valueError m))
    ∧ (∃ m, get_provider_for_tool fx_agg "nope" = .error (.keyError m))
    ∧ (∃ m, parse_tool_name { providerMap := [("p1:search", "p2")] }
        "p1:search" = .error (.valueError m)) := by
  refine ⟨?_, ?_, ?_, ?_⟩
  · exact (c2_lookup_and_validation fx_agg "unique_p1").1 "p1" (by decide)
  · exact (c2_lookup_and_validation fx_agg "search").2.1 (by decide) (by decide)
  · exact (c2_lookup_and_validation fx_agg "nope").2.2.1 (by decide) (by decide)
  · exact (c2_lookup_and_validation { providerMap := [("p1:search", "p2")] }
      "p1:search").2.2.2 "p1" "search" "p2" (by decide) rfl (by decide)

/-- C6: the stdio listen loop matches a message against the pending table
exactly when it has an `id` member and a `result` or `error` member,
completes a waiter only when a pending not-yet-completed entry exists,
and leaves everything else untouched; the SSE listen loop diverges from
this: because of the unparenthesized condition, a message carrying
`error` but no `id` is treated as a match, the `message["id"]` access
raises `KeyError`, and the loop terminates, dropping a subsequent valid
reply that the stdio loop would deliver. -/
theorem c6_listen_loop_matching :
    (∀ (pending : PendingTable) (m : RawMsg),
      (m.id.isSome && (m.result.isSome || m.error.isSome)) = false →
        stdioHandleMessage pending m = pending)
    ∧ (∀ (pending : PendingTable) (m : RawMsg) (idv : JVal),
        m.id = some idv →
        pyLookup pending (pyStr idv) = some .waiting →
        (m.result.isSome || m.error.isSome) = true →
        stdioHandleMessage pending m =
          pyInsert pending (pyStr idv) (.completed m))
    ∧ (∀ (pending : PendingTable) (m : RawMsg) (idv : JVal),
        m.id = some idv →
        (∀ w, pyLookup pending (pyStr idv) = some w → w ≠ .waiting) →
        stdioHandleMessage pending m = pending)
    ∧ sseHandleMessage [] { error := some .null } = .error (.keyError "id")
    ∧ sseListenLoop [("1", .waiting)]
        [{ error := some .null },
         { id := some (.str "1"), result := some (.obj []) }] =
      [("1", .waiting)]
    ∧ stdioListenLoop [("1", .waiting)]
        [{ error := some .null },
         { id := some (.str "1"), result := some (.obj []) }] =
      [("1", .completed { id := some (.str "1"), result := some (.obj []) })] := by
  refine ⟨?_, ?_, ?_, rfl, rfl, rfl⟩
  · intro pending m h
    simp [stdioHandleMessage, stdioIsResponse, h]
  · intro pending m idv hid hpend hre
    simp [stdioHandleMessage, stdioIsResponse, hid, hpend, hre]
  · intro pending m idv hid hw
    by_cases hre : (m.result.isSome || m.error.isSome) = true
    · cases hlook : pyLookup pending (pyStr idv) with
      | none => simp [stdioHandleMessage, stdioIsResponse, hid, hre, hlook]
      | some w =>
          cases w with
          | waiting => exact absurd rfl (hw _ hlook)
          | completed m2 =>
              simp [stdioHandleMessage, stdioIsResponse, hid, hre, hlook]
    · have hre2 : (m.result.isSome || m.error.isSome) = false := by
        revert hre
        cases m.result.isSome || m.error.isSome <;> simp
      simp [stdioHandleMessage, stdioIsResponse, hid, hre2]

/-- Witness for C6: a notification with no `id` is ignored by the stdio
loop. -/
theorem c6_listen_loop_matching_witness :
    stdioHandleMessage [("1", Waiter.waiting)]
        { method := some "notifications/progress" } =
      [("1", Waiter.waiting)] :=
  c6_listen_loop_matching.1 [("1", Waiter.waiting)]
    { method := some "notifications/progress" } rfl

/-- C8: for the tools/call of an ambiguous name over the scenario-2
aggregate, the JSON-RPC reply does carry `error.code = -32000` with
`message = str(e)`, but `error.data.type` is the raising exception's
class name `"ProtocolError"` (the conflict resolver's `ambiguous_tool`
payload is computed and discarded by the gateway), not
`"ambiguous_tool"`. -/
theorem c8_ambiguous_data_type :
    handle_request [("tools/call", fx_tools_call_handler)] (.str "1")
        "tools/call" { name := some "search" } =
      .failure (.str "1") (-32000)
        ("Ambiguous tool name search. This tool exists in multiple providers. Please use namespaced form <provider>:search")
        (some "ProtocolError")
    ∧ "ProtocolError" ≠ "ambiguous_tool" := by
  exact ⟨rfl, by decide⟩

/-! Sorting lemmas for the conflict resolver. -/

theorem mem_insertByScoreDesc (x a : Nat × String) (l : List (Nat × String)) :
    a ∈ insertByScoreDesc x l ↔ a = x ∨ a ∈ l := by
  induction l with
  | nil => simp [insertByScoreDesc]
  | cons y ys ih =>
      by_cases h : x.1 < y.1
      · simp [insertByScoreDesc, h, ih]
        tauto
      · simp [insertByScoreDesc, h]

theorem pairwise_insertByScoreDesc (x : Nat × String)
    (l : List (Nat × String)) (h : l.Pairwise (fun a b => b.1 ≤ a.1)) :
    (insertByScoreDesc x l).Pairwise (fun a b => b.1 ≤ a.1) := by
  induction l with
  | nil => simp [insertByScoreDesc]
  | cons y ys ih =>
      rcases List.pairwise_cons.mp h with ⟨hy, hys⟩
      by_cases hlt : x.1 < y.1
      · simp only [insertByScoreDesc, if_pos hlt]
        refine List.pairwise_cons.mpr ⟨?_, ih hys⟩
        intro b hb
        rcases (mem_insertByScoreDesc x b ys).mp hb with hbx | hbm
        · exact hbx ▸ Nat.le_of_lt hlt
        · exact hy b hbm
      · simp only [insertByScoreDesc, if_neg hlt]
        refine List.pairwise_cons.mpr ⟨?_, h⟩
        intro b hb
        have hyx : y.1 ≤ x.1 := Nat.le_of_not_lt hlt
        rcases List.mem_cons.mp hb with hby | hbm
        · exact hby ▸ hyx
        · exact Nat.le_trans (hy b hbm) hyx

theorem perm_insertByScoreDesc (x : Nat × String) (l : List (Nat × String)) :
    (insertByScoreDesc x l).Perm (x :: l) := by
  induction l with
  | nil => simp [insertByScoreDesc]
  | cons y ys ih =>
      by_cases h : x.1 < y.1
      · simp only [insertByScoreDesc, h, if_pos]
        exact (ih.cons y).trans (List.Perm.swap x y ys)
      · simp [insertByScoreDesc, h]

theorem sortByScoreDesc_pairwise (l : List (Nat × String)) :
    (sortByScoreDesc l).Pairwise (fun a b => b.1 ≤ a.1) := by
  induction l with
  | nil => simp [sortByScoreDesc]
  | cons x xs ih => exact pairwise_insertByScoreDesc x (sortByScoreDesc xs) ih

theorem sortByScoreDesc_perm (l : List (Nat × String)) :
    (sortByScoreDesc l).Perm l := by
  induction l with
  | nil => simp [sortByScoreDesc]
  | cons x xs ih =>
      exact (perm_insertByScoreDesc x (sortByScoreDesc xs)).trans (ih.cons x)

theorem similar_foldl_filterMap (score : String → Nat) (keys : List String)
    (acc : List (Nat × String)) :
    keys.foldl
        (fun acc c => if 0 < score c then acc ++ [(score c, c)] else acc)
        acc =
      acc ++ keys.filterMap
        (fun c => if 0 < score c then some (score c, c) else none) := by
  induction keys generalizing acc with
  | nil => simp
  | cons c cs ih =>
      by_cases h : 0 < score c
      · simp [h, ih, List.filterMap_cons]
      · simp [h, ih, List.filterMap_cons]

/-- C9 counterexample: `search` is a substring of `my_search`, yet the
resolver scores it 5, not 10 — the shared-word signal overwrites the
substring signal instead of the three signals being scored
independently. -/
theorem c9_counterexample :
    pyIn (pyLower "search") (pyLower "my_search") = true
    ∧ similarityScore "search" "my_search" = 5
    ∧ (5 : Nat) ≠ 10 := by decide

/-- C9 (amended): the three signals are evaluated in order and each
matching signal *replaces* the score — prefix match gives 3, else a
shared underscore-word gives 5, else a substring match gives 10, else 0
— and the resolver returns the first `maxSuggestions` names of the
positively-scored candidates stably sorted by descending final score
(so they are maximal under that score). -/
theorem c9_similarity_amended :
    (∀ n c, similarityScore n c =
      if pyStartsWith (pyLower c) (pyTake3 (pyLower n)) then 3
      else if (pySplit '_' n).any (fun word => pyIn (pyLower word) (pyLower c))
        then 5
      else if pyIn (pyLower n) (pyLower c) then 10
      else 0)
    ∧ (∀ keys n k, find_similar_tools keys n k =
        ((sortByScoreDesc (keys.filterMap
            (fun c => if 0 < similarityScore n c
              then some (similarityScore n c, c) else none))).take k).map
          Prod.snd)
    ∧ (∀ l : List (Nat × String),
        (sortByScoreDesc l).Pairwise (fun a b => b.1 ≤ a.1)
        ∧ (sortByScoreDesc l).Perm l) := by
  refine ⟨fun n c => rfl, ?_, fun l => ⟨sortByScoreDesc_pairwise l,
    sortByScoreDesc_perm l⟩⟩
  intro keys n k
  simp [find_similar_tools, similar_foldl_filterMap (similarityScore n) keys []]

/-- Witness for C9 (amended): the resolver over two cached names. -/
theorem c9_similarity_amended_witness :
    find_similar_tools ["my_search", "sea_urchin"] "search" 5 =
      ["my_search", "sea_urchin"] := by
  rw [c9_similarity_amended.2.1 ["my_search", "sea_urchin"] "search" 5]
  decide

/-! Splitting lemmas for resource URIs. -/

theorem splitFirstAux_scheme (p rest : List Char) (hp : ':' ∉ p) :
    splitFirstAux [':', '/', '/'] (p ++ ':' :: '/' :: '/' :: rest) =
      some (p, rest) := by
  induction p with
  | nil => simp [splitFirstAux, List.isPrefixOf]
  | cons c cs ih =>
      have hc : (':' : Char) ≠ c := fun h => hp (h ▸ List.mem_cons_self c cs)
      have hcs : ':' ∉ cs := fun h => hp (List.mem_cons_of_mem c h)
      simp [splitFirstAux, List.isPrefixOf, hc, ih hcs]

theorem pySplitOnce_scheme (p rest : String) (hp : ':' ∉ p.data) :
    pySplitOnce "://" (p ++ "://" ++ rest) = some (p, rest) := by
  have hlit : ("://" : String).data = [':', '/', '/'] := rfl
  have hdata : (p ++ "://" ++ rest).data =
      p.data ++ ':' :: '/' :: '/' :: rest.data := by
    simp [String.data_append, hlit]
  unfold pySplitOnce
  rw [hlit, hdata, splitFirstAux_scheme p.data rest.data hp]

/-- C4: resource aggregation publishes each resource of provider `p`
whose URI does not already start with `p://` under the URI
`p://<originalUri>` with every other field unchanged; routing a
published `p://rest` URI for a known provider `p` performs exactly one
`read_resource`, on `p`, with the prefix stripped back off (`rest`);
and a URI with no `://`, or with an unknown scheme, fails with the
`ValueError` kind. -/
theorem c4_resource_prefix_route :
    (∀ providers : List ResProvider, aggregate_resources providers =
      (providers.map (fun p =>
        match p.listResources with
        | .ok rs => rs.map (prefixResource p.name)
        | .error _ => [])).flatten)
    ∧ (∀ (pname : String) (r : Resource),
        pyStartsWith r.uri (pname ++ "://") = false →
        prefixResource pname r =
          { uri := pname ++ "://" ++ r.uri, name := r.name,
            description := r.description, mime_type := r.mime_type,
            resource_type := r.resource_type })
    ∧ (∀ (env : List (String × ProviderInst)) (pmap : List (String × String))
        (p rest : String) (inst : ProviderInst), ':' ∉ p.data →
        pyLookup pmap p = some p →
        pyLookup env p = some inst →
        route_resource_read env pmap (p ++ "://" ++ rest) =
          ([⟨p, rest⟩], inst.readResource rest))
    ∧ (∀ (env : List (String × ProviderInst)) (pmap : List (String × String))
        (uri : String), pySplitOnce "://" uri = none →
        ∃ m, route_resource_read env pmap uri = ([], .error (.valueError m)))
    ∧ (∀ (env : List (String × ProviderInst)) (pmap : List (String × String))
        (uri scheme rest2 : String),
        pySplitOnce "://" uri = some (scheme, rest2) →
        pyLookup pmap scheme = none →
        ∃ m, route_resource_read env pmap uri = ([], .error (.valueError m))) := by
  refine ⟨?_, ?_, ?_, ?_, ?_⟩
  · intro providers
    suffices h : ∀ acc : List Resource,
        providers.foldl
          (fun acc p =>
            match p.listResources with
            | .error _ => acc
            | .ok rs => acc ++ rs.map (prefixResource p.name)) acc =
        acc ++ (providers.map (fun p =>
          match p.listResources with
          | .ok rs => rs.map (prefixResource p.name)
          | .error _ => [])).flatten by
      simpa [aggregate_resources] using h []
    induction providers with
    | nil => intro acc; simp
    | cons q qs ih =>
        intro acc
        cases hq : q.listResources with
        | ok rs => simp [hq, ih]
        | error e => simp [hq, ih]
  · intro pname r hpre
    simp [prefixResource, hpre]
  · intro env pmap p rest inst hp hmapped hinst
    have hsplit := pySplitOnce_scheme p rest hp
    simp [route_resource_read, get_provider_for_uri, stripProviderScheme,
      hsplit, hmapped, hinst]
  · intro env pmap uri hsplit
    refine ⟨"Invalid resource URI: " ++
      ("Invalid URI format: " ++ uri ++ ". Expected: <provider>://<path>"), ?_⟩
    simp [route_resource_read, get_provider_for_uri, hsplit]
  · intro env pmap uri scheme rest2 hsplit hnone
    refine ⟨"Invalid resource URI: " ++
      ("Unknown provider scheme " ++ scheme ++ " in URI: " ++ uri), ?_⟩
    simp [route_resource_read, get_provider_for_uri, hsplit, hnone]

/-- Witness for C4: the spec's scenario 4, `p1://PROJ-123`. -/
theorem c4_resource_prefix_route_witness :
    prefixResource "p1" { uri := "PROJ-123", name := "Issue 123" } =
      { uri := "p1" ++ "://" ++ "PROJ-123", name := "Issue 123" }
    ∧ route_resource_read [("p1", fx_inst)] [("p1", "p1")]
        ("p1" ++ "://" ++ "PROJ-123") =
      ([⟨"p1", "PROJ-123"⟩], fx_inst.readResource "PROJ-123")
    ∧ (∃ m, route_resource_read [("p1", fx_inst)] [("p1", "p1")]
        "no-scheme-here" = ([], .error (.valueError m)))
    ∧ (∃ m, route_resource_read [("p1", fx_inst)] [("p1", "p1")]
        "unknown://PROJ-123" = ([], .error (.valueError m))) := by
  refine ⟨?_, ?_, ?_, ?_⟩
  · exact c4_resource_prefix_route.2.1 "p1"
      { uri := "PROJ-123", name := "Issue 123" } (by decide)
  · exact c4_resource_prefix_route.2.2.1 [("p1", fx_inst)] [("p1", "p1")]
      "p1" "PROJ-123" fx_inst (by decide) (by decide) rfl
  · exact c4_resource_prefix_route.2.2.2.1 [("p1", fx_inst)] [("p1", "p1")]
      "no-scheme-here" (by decide)
  · exact c4_resource_prefix_route.2.2.2.2 [("p1", fx_inst)] [("p1", "p1")]
      "unknown://PROJ-123" "unknown" "PROJ-123" (by decide) (by decide)

/-! Structural lemmas about `aggregate_tools`. -/

theorem aggTool_foldl_snd (pn : String) (cat : Option String)
    (cf : List String) (ts : List Tool) :
    ∀ acc : ToolAggregatorState × List Tool,
    (ts.foldl (aggStepTool pn cat cf) acc).2 =
      acc.2 ++ ts.map (enrichTool pn cat cf) := by
  induction ts with
  | nil => intro acc; simp
  | cons t ts ih => intro acc; simp [ih, aggStepTool]

theorem aggTool_foldl_conflicts (pn : String) (cat : Option String)
    (cf : List String) (ts : List Tool) :
    ∀ acc : ToolAggregatorState × List Tool,
    (ts.foldl (aggStepTool pn cat cf) acc).1.conflicts = acc.1.conflicts := by
  induction ts with
  | nil => intro acc; rfl
  | cons t ts ih => intro acc; simp [ih, aggStepTool]

theorem aggTool_foldl_lookup (pn : String) (cat : Option String)
    (cf : List String) (ts : List Tool) :
    ∀ (acc : ToolAggregatorState × List Tool) (k : String),
    k ∉ ts.map (fun t => (enrichTool pn cat cf t).name) →
    pyLookup (ts.foldl (aggStepTool pn cat cf) acc).1.toolCache k =
        pyLookup acc.1.toolCache k
    ∧ pyLookup (ts.foldl (aggStepTool pn cat cf) acc).1.providerMap k =
        pyLookup acc.1.providerMap k := by
  induction ts with
  | nil => intro acc k _; exact ⟨rfl, rfl⟩
  | cons t ts ih =>
      intro acc k hk
      have hk1 : (enrichTool pn cat cf t).name ≠ k := by
        intro h
        exact hk (by simp [h])
      have hk2 : k ∉ ts.map (fun t => (enrichTool pn cat cf t).name) := by
        intro h
        exact hk (by simp [h])
      have := ih (aggStepTool pn cat cf acc t) k hk2
      refine ⟨this.1.trans ?_, this.2.trans ?_⟩
      · simp [aggStepTool, pyLookup_pyInsert, hk1]
      · simp [aggStepTool, pyLookup_pyInsert, hk1]

theorem aggProv_foldl_snd (ptools : List (String × List Tool))
    (cf : List String) (ps : List AggProvider) :
    ∀ acc : ToolAggregatorState × List Tool,
    (ps.foldl (aggStepProvider ptools cf) acc).2 =
      acc.2 ++ (ps.map (fun p =>
        ((pyLookup ptools p.name).getD []).map
          (enrichTool p.name p.category cf))).flatten := by
  induction ps with
  | nil => intro acc; simp
  | cons p ps ih =>
      intro acc
      simp only [List.foldl_cons, ih, List.map_cons, List.flatten_cons]
      simp [aggStepProvider, aggTool_foldl_snd]

theorem aggProv_foldl_conflicts (ptools : List (String × List Tool))
    (cf : List String) (ps : List AggProvider) :
    ∀ acc : ToolAggregatorState × List Tool,
    (ps.foldl (aggStepProvider ptools cf) acc).1.conflicts =
      acc.1.conflicts := by
  induction ps with
  | nil => intro acc; rfl
  | cons p ps ih =>
      intro acc
      simp only [List.foldl_cons, ih]
      simp [aggStepProvider, aggTool_foldl_conflicts]

theorem aggProv_foldl_lookup (ptools : List (String × List Tool))
    (cf : List String) (ps : List AggProvider) :
    ∀ (acc : ToolAggregatorState × List Tool) (k : String),
    k ∉ (ps.map (fun p =>
        ((pyLookup ptools p.name).getD []).map
          (fun t => (enrichTool p.name p.category cf t).name))).flatten →
    pyLookup (ps.foldl (aggStepProvider ptools cf) acc).1.toolCache k =
        pyLookup acc.1.toolCache k
    ∧ pyLookup (ps.foldl (aggStepProvider ptools cf) acc).1.providerMap k =
        pyLookup acc.1.providerMap k := by
  induction ps with
  | nil => intro acc k _; exact ⟨rfl, rfl⟩
  | cons p ps ih =>
      intro acc k hk
      have hk1 : k ∉ ((pyLookup ptools p.name).getD []).map
          (fun t => (enrichTool p.name p.category cf t).name) := by
        intro h
        exact hk (by simp [h])
      have hk2 : k ∉ (ps.map (fun p =>
          ((pyLookup ptools p.name).getD []).map
            (fun t => (enrichTool p.name p.category cf t).name))).flatten := by
        intro h
        exact hk (by simp; right; simpa using h)
      have hstep := aggTool_foldl_lookup p.name p.category cf
        ((pyLookup ptools p.name).getD []) acc k hk1
      have := ih (aggStepProvider ptools cf acc p) k hk2
      exact ⟨this.1.trans hstep.1, this.2.trans hstep.2⟩

theorem aggregate_tools_snd (st : ToolAggregatorState)
    (ps : List AggProvider) :
    (aggregate_tools st ps).2 =
      (ps.map (fun p =>
        ((pyLookup (providerToolsDict ps) p.name).getD []).map
          (enrichTool p.name p.category
            (conflictsOf (providerToolsDict ps))))).flatten := by
  simpa [aggregate_tools] using
    aggProv_foldl_snd (providerToolsDict ps)
      (conflictsOf (providerToolsDict ps)) ps
      ({ st with conflicts := conflictsOf (providerToolsDict ps) }, [])

theorem aggregate_tools_conflicts (st : ToolAggregatorState)
    (ps : List AggProvider) :
    (aggregate_tools st ps).1.conflicts =
      conflictsOf (providerToolsDict ps) := by
  simpa [aggregate_tools] using
    aggProv_foldl_conflicts (providerToolsDict ps)
      (conflictsOf (providerToolsDict ps)) ps
      ({ st with conflicts := conflictsOf (providerToolsDict ps) }, [])

theorem foldl_pyInsert_fresh {α : Type} (f : AggProvider → α) :
    ∀ (ps : List AggProvider) (acc : List (String × α)),
    (ps.map AggProvider.name).Nodup →
    (∀ p ∈ ps, pyLookup acc p.name = none) →
    ps.foldl (fun d p => pyInsert d p.name (f p)) acc =
      acc ++ ps.map (fun p => (p.name, f p)) := by
  intro ps
  induction ps with
  | nil => intro acc _ _; simp
  | cons p ps ih =>
      intro acc hnd hacc
      have hnd2 : (∀ x ∈ ps, ¬ x.name = p.name)
          ∧ (ps.map AggProvider.name).Nodup := by simpa using hnd
      rcases hnd2 with ⟨hp, hps⟩
      have hfresh : pyLookup acc p.name = none :=
        hacc p (List.mem_cons_self p ps)
      have hstep : pyInsert acc p.name (f p) = acc ++ [(p.name, f p)] :=
        pyInsert_of_not_mem acc p.name (f p) hfresh
      have hacc2 : ∀ q ∈ ps, pyLookup (acc ++ [(p.name, f p)]) q.name = none := by
        intro q hq
        have hne : p.name ≠ q.name := fun h => hp q hq h.symm
        rw [pyLookup_append]
        simp [hacc q (List.mem_cons_of_mem p hq), pyLookup, hne]
      simp only [List.foldl_cons, hstep, ih (acc ++ [(p.name, f p)]) hps hacc2]
      simp

theorem providerToolsDict_of_nodup (ps : List AggProvider)
    (hnd : (ps.map AggProvider.name).Nodup) :
    providerToolsDict ps = ps.map (fun p => (p.name, toolsOfProvider p)) := by
  simpa [providerToolsDict] using
    foldl_pyInsert_fresh toolsOfProvider ps [] hnd (by intro p _; rfl)

theorem pyLookup_map_nodup {α : Type} (f : AggProvider → α) :
    ∀ (ps : List AggProvider), (ps.map AggProvider.name).Nodup →
    ∀ p ∈ ps, pyLookup (ps.map (fun q => (q.name, f q))) p.name = some (f p) := by
  intro ps
  induction ps with
  | nil => intro _ p hp; cases hp
  | cons q qs ih =>
      intro hnd p hp
      have hnd2 : (∀ x ∈ qs, ¬ x.name = q.name)
          ∧ (qs.map AggProvider.name).Nodup := by simpa using hnd
      rcases hnd2 with ⟨hq, hqs⟩
      rcases List.mem_cons.mp hp with hpq | hpm
      · subst hpq
        simp [pyLookup]
      · have hne : q.name ≠ p.name := fun h => hq p hpm h.symm
        simp only [List.map_cons, pyLookup, if_neg hne]
        exact ih hqs p hpm

theorem allToolNames_of_nodup (ps : List AggProvider)
    (hnd : (ps.map AggProvider.name).Nodup) :
    allToolNames (providerToolsDict ps) = specOccurrences ps := by
  rw [providerToolsDict_of_nodup ps hnd]
  simp [allToolNames, specOccurrences, List.map_map]
  rfl

theorem conflictsOf_mem_iff (ptools : List (String × List Tool))
    (n : String) :
    n ∈ conflictsOf ptools ↔ 1 < (allToolNames ptools).count n := by
  constructor
  · intro hm
    rcases List.mem_filter.mp hm with ⟨_, hpred⟩
    simpa using hpred
  · intro h
    refine List.mem_filter.mpr ⟨?_, by simpa using h⟩
    exact List.mem_dedup.mpr
      (List.count_pos_iff.mp (Nat.lt_trans Nat.zero_lt_one h))

theorem conflictsOf_contains_eq (ptools : List (String × List Tool))
    (n : String) :
    (conflictsOf ptools).contains n =
      decide (1 < (allToolNames ptools).count n) := by
  by_cases h : 1 < (allToolNames ptools).count n
  · have hmem : n ∈ conflictsOf ptools := (conflictsOf_mem_iff ptools n).mpr h
    simp [h]
    exact hmem
  · have hnot : n ∉ conflictsOf ptools :=
      fun hm => h ((conflictsOf_mem_iff ptools n).mp hm)
    simp [h]
    exact hnot

theorem pyLookup_mem {α : Type} (d : List (String × α)) (k : String) (v : α)
    (h : pyLookup d k = some v) : (k, v) ∈ d := by
  induction d with
  | nil => simp [pyLookup] at h
  | cons hd tl ih =>
      obtain ⟨k2, w⟩ := hd
      by_cases h2 : k2 = k
      · subst h2
        simp [pyLookup] at h
        simp [h]
      · simp [pyLookup, h2] at h
        exact List.mem_cons_of_mem _ (ih h)

theorem pyInsert_mem {α : Type} (d : List (String × α)) (k0 : String)
    (v0 : α) (k : String) (v : α) (h : (k, v) ∈ pyInsert d k0 v0) :
    (k, v) ∈ d ∨ (k = k0 ∧ v = v0) := by
  induction d with
  | nil =>
      simp [pyInsert] at h
      exact Or.inr h
  | cons hd tl ih =>
      obtain ⟨k2, w⟩ := hd
      by_cases h2 : k2 = k0
      · subst h2
        simp only [pyInsert, if_pos rfl] at h
        rcases List.mem_cons.mp h with hh | ht
        · have : k = k2 ∧ v = v0 := by
            constructor <;> [exact congrArg Prod.fst hh; exact congrArg Prod.snd hh]
          exact Or.inr this
        · exact Or.inl (List.mem_cons_of_mem _ ht)
      · simp only [pyInsert, if_neg h2] at h
        rcases List.mem_cons.mp h with hh | ht
        · exact Or.inl (hh ▸ List.mem_cons_self _ _)
        · rcases ih ht with hm | hr
          · exact Or.inl (List.mem_cons_of_mem _ hm)
          · exact Or.inr hr

theorem providerToolsDict_values :
    ∀ (ps : List AggProvider) (acc : List (String × List Tool)) (k : String)
      (ts : List Tool),
    (k, ts) ∈ ps.foldl (fun d p => pyInsert d p.name (toolsOfProvider p)) acc →
    (k, ts) ∈ acc ∨ ∃ q ∈ ps, ts = toolsOfProvider q := by
  intro ps
  induction ps with
  | nil => intro acc k ts h; exact Or.inl h
  | cons p qs ih =>
      intro acc k ts h
      rcases ih (pyInsert acc p.name (toolsOfProvider p)) k ts h with
        hin | ⟨q, hq, hts⟩
      · rcases pyInsert_mem acc p.name (toolsOfProvider p) k ts hin with
          hacc | ⟨_, hts⟩
        · exact Or.inl hacc
        · exact Or.inr ⟨p, List.mem_cons_self p qs, hts⟩
      · exact Or.inr ⟨q, List.mem_cons_of_mem p hq, hts⟩

theorem listSubstr_singleton_iff (c : Char) (l : List Char) :
    listSubstr [c] l = true ↔ c ∈ l := by
  induction l with
  | nil => simp [listSubstr]
  | cons d ds ih =>
      simp [listSubstr, List.isPrefixOf, ih, List.mem_cons]

theorem pyIn_colon_iff (s : String) :
    pyIn ":" s = true ↔ ':' ∈ s.data := by
  simpa [pyIn, show (":" : String).data = [':'] from rfl] using
    listSubstr_singleton_iff ':' s.data

theorem pyLookup_providerToolsDict (ps : List AggProvider)
    (hnd : (ps.map AggProvider.name).Nodup) (p : AggProvider) (hp : p ∈ ps) :
    pyLookup (providerToolsDict ps) p.name = some (toolsOfProvider p) := by
  rw [providerToolsDict_of_nodup ps hnd]
  exact pyLookup_map_nodup toolsOfProvider ps hnd p hp

theorem enrichTool_eq_spec (ps : List AggProvider)
    (hnd : (ps.map AggProvider.name).Nodup) (p : AggProvider) (t : Tool) :
    enrichTool p.name p.category (conflictsOf (providerToolsDict ps)) t =
      specEnrichedTool ps p t := by
  unfold enrichTool specEnrichedTool
  rw [conflictsOf_contains_eq, allToolNames_of_nodup ps hnd]
  by_cases h : 1 < (specOccurrences ps).count t.name
  · simp [h]
  · simp [h]

theorem published_names_eq (st : ToolAggregatorState)
    (ps : List AggProvider) :
    (aggregate_tools st ps).2.map Tool.name =
      (ps.map (fun p =>
        ((pyLookup (providerToolsDict ps) p.name).getD []).map
          (fun t => (enrichTool p.name p.category
            (conflictsOf (providerToolsDict ps)) t).name))).flatten := by
  rw [aggregate_tools_snd, List.map_flatten, List.map_map]
  congr 1
  apply List.map_congr_left
  intro p _
  simp [Function.comp, List.map_map]

theorem aggregate_tools_lookup_stale (st : ToolAggregatorState)
    (ps : List AggProvider) (k : String)
    (hk : k ∉ (aggregate_tools st ps).2.map Tool.name) :
    pyLookup (aggregate_tools st ps).1.toolCache k = pyLookup st.toolCache k
    ∧ pyLookup (aggregate_tools st ps).1.providerMap k =
        pyLookup st.providerMap k := by
  rw [published_names_eq st ps] at hk
  simpa [aggregate_tools] using
    aggProv_foldl_lookup (providerToolsDict ps)
      (conflictsOf (providerToolsDict ps)) ps
      ({ st with conflicts := conflictsOf (providerToolsDict ps) }, []) k hk

/-- C1 counterexample: a single connected provider whose `list_tools`
reply contains the name `search` twice.  No *other* provider returns
`search`, yet both occurrences are published namespaced as `p1:search`
and `search` lands in the conflict set — the code counts occurrences,
not providers. -/
theorem c1_counterexample :
    (aggregate_tools {} [fx_dup]).2.map Tool.name = ["p1:search", "p1:search"]
    ∧ (aggregate_tools {} [fx_dup]).1.conflicts = ["search"]
    ∧ [fx_dup].map AggProvider.name = ["p1"] := by
  refine ⟨by decide, by decide, by decide⟩

/-- C1 (amended): for providers with pairwise-distinct names, the
aggregated catalog publishes one entry per returned tool occurrence,
namespaced as `P.name:t.name` with `namespaceReason = "conflict"` iff
`t.name` occurs more than once among all returned tools (across all
providers, counting multiplicity), and kept natural otherwise; the
conflict set is exactly the set of names occurring more than once. -/
theorem c1_aggregation_amended (st : ToolAggregatorState)
    (ps : List AggProvider) (hnd : (ps.map AggProvider.name).Nodup) :
    (aggregate_tools st ps).2 = specAggregatedTools ps
    ∧ ∀ n, ((aggregate_tools st ps).1.conflicts.contains n = true ↔
        1 < (specOccurrences ps).count n) := by
  constructor
  · rw [aggregate_tools_snd]
    unfold specAggregatedTools
    congr 1
    apply List.map_congr_left
    intro p hp
    rw [pyLookup_providerToolsDict ps hnd p hp]
    simp only [Option.getD_some]
    apply List.map_congr_left
    intro t _
    exact enrichTool_eq_spec ps hnd p t
  · intro n
    rw [aggregate_tools_conflicts, conflictsOf_contains_eq,
      allToolNames_of_nodup ps hnd]
    simp

/-- Witness for C1 (amended): the scenario-2 run. -/
theorem c1_aggregation_amended_witness :
    (aggregate_tools {} [fx_p1, fx_p2]).2 = specAggregatedTools [fx_p1, fx_p2]
    ∧ ((aggregate_tools {} [fx_p1, fx_p2]).1.conflicts.contains "search" = true ↔
        1 < (specOccurrences [fx_p1, fx_p2]).count "search") :=
  ⟨(c1_aggregation_amended {} [fx_p1, fx_p2] (by decide)).1,
   (c1_aggregation_amended {} [fx_p1, fx_p2] (by decide)).2 "search"⟩

/-- C5 counterexample: after a second `aggregate_tools` run over a
changed catalog (`tool_a` replaced by `tool_b`), the stale key `tool_a`
is still in `toolByName` and `providerByTool`, although the second run
published only `tool_b` — the caches are never cleared between runs. -/
theorem c5_counterexample :
    (pyLookup fx_run2.1.toolCache "tool_a").isSome = true
    ∧ pyLookup fx_run2.1.providerMap "tool_a" = some "p1"
    ∧ fx_run2.2.map Tool.name = ["tool_b"] := by
  refine ⟨by decide, by decide, by decide⟩

/-- C5 (amended): after a run of `aggregate_tools`, only the conflict set
is derived solely from that run's inputs; the two maps accumulate, with
keys not published by this run keeping their previous bindings.  For a
fresh aggregator (empty caches) whose providers return only colon-free
tool names, a natural name in the conflict set has no `toolByName` or
`providerByTool` entry. -/
theorem c5_aggregation_state_amended (st : ToolAggregatorState)
    (ps : List AggProvider) :
    (aggregate_tools st ps).1.conflicts = conflictsOf (providerToolsDict ps)
    ∧ (∀ k, k ∉ (aggregate_tools st ps).2.map Tool.name →
        pyLookup (aggregate_tools st ps).1.toolCache k =
            pyLookup st.toolCache k
        ∧ pyLookup (aggregate_tools st ps).1.providerMap k =
            pyLookup st.providerMap k)
    ∧ ((∀ q ∈ ps, ∀ t ∈ toolsOfProvider q, pyIn ":" t.name = false) →
        ∀ n,
          (aggregate_tools ({} : ToolAggregatorState) ps).1.conflicts.contains
            n = true →
          pyLookup (aggregate_tools ({} : ToolAggregatorState) ps).1.toolCache
              n = none
          ∧ pyLookup
              (aggregate_tools ({} : ToolAggregatorState) ps).1.providerMap
              n = none) := by
  refine ⟨aggregate_tools_conflicts st ps, aggregate_tools_lookup_stale st ps,
    ?_⟩
  intro hfree n hcont
  have hncf : n ∈ conflictsOf (providerToolsDict ps) := by
    rw [aggregate_tools_conflicts] at hcont
    exact List.elem_iff.mp hcont
  have hcount := (conflictsOf_mem_iff (providerToolsDict ps) n).mp hncf
  -- every name in the conflict set is a natural name of some returned tool,
  -- hence colon-free under the hypothesis
  have hnfree : pyIn ":" n = false := by
    have hmemall : n ∈ allToolNames (providerToolsDict ps) :=
      List.count_pos_iff.mp (Nat.lt_trans Nat.zero_lt_one hcount)
    simp only [allToolNames] at hmemall
    rcases List.mem_flatten.mp hmemall with ⟨l, hl, hnl⟩
    rcases List.mem_map.mp hl with ⟨pr, hpr, hprl⟩
    rcases providerToolsDict_values ps [] pr.1 pr.2 (by simpa using hpr) with
      hacc | ⟨q, hq, hts⟩
    · cases hacc
    · subst hprl
      rcases List.mem_map.mp hnl with ⟨t0, ht0, ht0n⟩
      rw [hts] at ht0
      exact ht0n ▸ hfree q hq t0 ht0
  -- the run publishes no key equal to a conflict-set name
  have hnot : n ∉ (aggregate_tools ({} : ToolAggregatorState) ps).2.map
      Tool.name := by
    rw [published_names_eq]
    intro hmem
    rcases List.mem_flatten.mp hmem with ⟨l, hl, hnl⟩
    rcases List.mem_map.mp hl with ⟨p, hp, hpl⟩
    subst hpl
    rcases List.mem_map.mp hnl with ⟨t, ht, htn⟩
    have htfree : pyIn ":" t.name = false := by
      cases hlk : pyLookup (providerToolsDict ps) p.name with
      | none => rw [hlk] at ht; cases ht
      | some ts =>
          rw [hlk] at ht
          simp only [Option.getD_some] at ht
          rcases providerToolsDict_values ps [] p.name ts
            (by simpa [providerToolsDict] using
              pyLookup_mem (providerToolsDict ps) p.name ts hlk) with
            hacc | ⟨q, hq, hts⟩
          · cases hacc
          · exact hfree q hq t (hts ▸ ht)
    by_cases hc : (conflictsOf (providerToolsDict ps)).contains t.name
    · -- published namespaced: the name contains a colon, but `n` is
      -- colon-free
      have hcm : t.name ∈ conflictsOf (providerToolsDict ps) :=
        List.elem_iff.mp hc
      have hname : (enrichTool p.name p.category
          (conflictsOf (providerToolsDict ps)) t).name =
          p.name ++ ":" ++ t.name := by
        simp [enrichTool, hcm]
      rw [hname] at htn
      have : pyIn ":" n = true := by
        rw [pyIn_colon_iff, ← htn]
        have : (p.name ++ ":" ++ t.name).data =
            p.name.data ++ ':' :: t.name.data := by
          simp [String.data_append, show (":" : String).data = [':'] from rfl]
        rw [this]
        simp
      rw [this] at hnfree
      cases hnfree
    · -- published natural: then `n` itself would not be in the conflict set
      have hcm : t.name ∉ conflictsOf (providerToolsDict ps) :=
        fun hm => hc (List.elem_iff.mpr hm)
      have hname : (enrichTool p.name p.category
          (conflictsOf (providerToolsDict ps)) t).name = t.name := by
        simp [enrichTool, hcm]
      rw [hname] at htn
      subst htn
      exact hc (List.elem_iff.mpr hncf)
  have := aggregate_tools_lookup_stale ({} : ToolAggregatorState) ps n hnot
  simpa using this

/-- Witness for C5 (amended): the scenario-2 run from a fresh aggregator:
`search` is in the conflict set and has no cache entry. -/
theorem c5_aggregation_state_amended_witness :
    (aggregate_tools ({} : ToolAggregatorState) [fx_p1, fx_p2]).1.conflicts =
      conflictsOf (providerToolsDict [fx_p1, fx_p2])
    ∧ pyLookup
        (aggregate_tools ({} : ToolAggregatorState) [fx_p1, fx_p2]).1.toolCache
        "search" = none
    ∧ pyLookup
        (aggregate_tools ({} : ToolAggregatorState)
          [fx_p1, fx_p2]).1.providerMap "search" = none := by
  have h := c5_aggregation_state_amended ({} : ToolAggregatorState)
    [fx_p1, fx_p2]
  have h3 := h.2.2 (by decide) "search" (by decide)
  exact ⟨h.1, h3.1, h3.2⟩

end StartMCP
